import Mathlib

/-
Verification of the geromekevin blog's page templates and presentational
components, shallowly embedded from the JavaScript source.

Sources embedded:
- src/components/layout.js, its PostListItem section (post list item)
- src/templates/tags.js (per-tag page and its page query)
- the blog-post template (BlogPostTemplate with tag chips and prev/next links)
- the blog index template (BlogIndex and its date-descending page query)
- the all-tags index template (TagsPage with grouped tag counts)
- the Layout component (home-route enlarged header vs compact link header)

Strings are compared through their character lists, which matches the
code-unit comparison JavaScript performs for string fields such as dates
and tags.
-/

/-- The `fields` object of a markdown node: the slug derived from the file path. -/
structure PostFields where
  slug : String
deriving Repr, DecidableEq

/-- YAML frontmatter of one post, as the page queries request it.
`title`, `description` and `tags` may be absent from a file's frontmatter,
so they are options; JavaScript reads an absent field as `undefined`. -/
structure Frontmatter where
  title : Option String
  date : String
  description : Option String
  tags : Option (List String)
deriving Repr, DecidableEq

/-- One markdown node as delivered to the templates by the page queries:
slug field, frontmatter, auto-derived excerpt, reading time and rendered HTML. -/
structure PostNode where
  fields : PostFields
  frontmatter : Frontmatter
  excerpt : String
  timeToRead : Nat
  html : String
deriving Repr, DecidableEq

/-- JavaScript `a || b` for an optional string field `a`: an absent field
(`undefined`) and the empty string are both falsy, so both fall back to `b`. -/
def jsOr : Option String → String → String
  | some s, b => if s = "" then b else s
  | none, b => b

/-- `post.frontmatter.tags || []` — the tag list of a node, empty when the
frontmatter has no `tags` key. -/
def tagsOf (n : PostNode) : List String :=
  n.frontmatter.tags.getD []

/-- A character that belongs to a word for slug-casing purposes. -/
def isWordChar (c : Char) : Bool :=
  c.isAlpha || c.isDigit

/-- A boundary inside a run of word characters: lower-to-upper case change or a
letter/digit change starts a new word. -/
def wordBoundary (p c : Char) : Bool :=
  (p.isLower && c.isUpper) || (p.isAlpha && c.isDigit) || (p.isDigit && c.isAlpha)

/-- Splits a character list into words, accumulating the current word reversed. -/
def wordsAux : List Char → List Char → List (List Char)
  | [], cur => if cur = [] then [] else [cur.reverse]
  | c :: rest, cur =>
    if isWordChar c then
      match cur with
      | [] => wordsAux rest [c]
      | p :: _ =>
        if wordBoundary p c then cur.reverse :: wordsAux rest [c]
        else wordsAux rest (c :: cur)
    else
      if cur = [] then wordsAux rest []
      else cur.reverse :: wordsAux rest []

/-- Models `kebabCase` from lodash (the slug-casing used for tag routes) on
ASCII tag names: split into words, lowercase each, join with a hyphen. -/
def kebabCase (s : String) : String :=
  String.intercalate "-" ((wordsAux s.data []).map fun w => String.mk (w.map Char.toLower))

/-- String order by character list, as JavaScript compares strings by code unit. -/
def strLe (a b : String) : Prop :=
  a.data ≤ b.data

instance : DecidableRel strLe :=
  fun a b => inferInstanceAs (Decidable (a.data ≤ b.data))

instance : IsTotal String strLe :=
  ⟨fun a b => le_total a.data b.data⟩

instance : IsTrans String strLe :=
  ⟨fun _ _ _ h h' => le_trans h h'⟩

/-- `tags.sort()` — JavaScript default array sort of the tag strings, ascending
by code-unit comparison. -/
def sortStrings (l : List String) : List String :=
  List.insertionSort strLe l

/-- The date-descending order the page queries request:
`sort: { fields: [frontmatter___date], order: DESC }`. -/
def postDateGe (a b : PostNode) : Prop :=
  b.frontmatter.date.data ≤ a.frontmatter.date.data

instance : DecidableRel postDateGe :=
  fun a b => inferInstanceAs (Decidable (b.frontmatter.date.data ≤ a.frontmatter.date.data))

instance : IsTotal PostNode postDateGe :=
  ⟨fun a b => le_total b.frontmatter.date.data a.frontmatter.date.data⟩

instance : IsTrans PostNode postDateGe :=
  ⟨fun _ _ _ h h' => le_trans h' h⟩

/-- Sorting a node list newest-first, the order every post-listing query asks for. -/
def sortPostsDesc (posts : List PostNode) : List PostNode :=
  List.insertionSort postDateGe posts

/-- What the PostListItem component of src/components/layout.js renders for one
node: a keyed heading link, the byline data, and the description-or-excerpt
body snippet. -/
structure ListItem where
  key : String
  href : String
  titleText : String
  dateShown : String
  timeToRead : Nat
  bodyHtml : String
deriving Repr, DecidableEq

/-- `PostListItem({ node, title = node.frontmatter.title || node.fields.slug })`
from src/components/layout.js: heading links to the slug and shows `title`,
the paragraph shows `node.frontmatter.description || node.excerpt`. -/
def PostListItem (n : PostNode) : ListItem :=
  { key := n.fields.slug
    href := n.fields.slug
    titleText := jsOr n.frontmatter.title n.fields.slug
    dateShown := n.frontmatter.date
    timeToRead := n.timeToRead
    bodyHtml := jsOr n.frontmatter.description n.excerpt }

/-- The route of a tag's listing page: `/tags/${kebabCase(tag)}/`. -/
def tagRoute (t : String) : String :=
  "/tags/" ++ kebabCase t ++ "/"

/-- The separator the blog-post template puts after every tag chip except the
last one: a comma followed by a non-breaking space (`',\xa0'`). -/
def commaNbsp : String :=
  ", "

/-- One tag chip of the blog-post template: the tag text, the link target of
its chip, and the separator rendered after it. -/
structure Chip where
  tag : String
  href : String
  sep : String
deriving Repr, DecidableEq

/-- A previous/next navigation link of the blog-post template. -/
structure NavLink where
  href : String
  text : String
deriving Repr, DecidableEq

/-- `tags.sort().map((tag, index) => ...)` from the blog-post template: chips
over the sorted tags, each linking to `/tags/${kebabCase(tag)}/`, with
`index === tags.length - 1 ? '' : ',\xa0'` as the trailing separator. -/
def tagChips (tags : List String) : List Chip :=
  let sorted := sortStrings tags
  sorted.enum.map fun p =>
    { tag := p.2
      href := tagRoute p.2
      sep := if p.1 = sorted.length - 1 then "" else commaNbsp }

/-- What the blog-post template (BlogPostTemplate) renders for one post. -/
structure PostPageView where
  seoTitle : Option String
  seoDescription : String
  titleShown : Option String
  dateShown : String
  tagChips : List Chip
  bodyHtml : String
  prevLink : Option NavLink
  nextLink : Option NavLink
deriving Repr, DecidableEq

/-- The BlogPostTemplate render: SEO description is
`post.frontmatter.description || post.excerpt`; tag chips come from
`post.frontmatter.tags || []`; the prev/next links render exactly when the
`previous`/`next` page-context references are present
(`{previous && <Link .../>}`, `{next && <Link .../>}`). -/
def BlogPostTemplate (post : PostNode) (prevNode nextNode : Option PostNode) : PostPageView :=
  { seoTitle := post.frontmatter.title
    seoDescription := jsOr post.frontmatter.description post.excerpt
    titleShown := post.frontmatter.title
    dateShown := post.frontmatter.date
    tagChips := tagChips (tagsOf post)
    bodyHtml := post.html
    prevLink := prevNode.map fun p =>
      { href := p.fields.slug, text := "← " ++ p.frontmatter.title.getD "" }
    nextLink := nextNode.map fun p =>
      { href := p.fields.slug, text := p.frontmatter.title.getD "" ++ " →" } }

/-- Modelled from the spec: the page-creation code that passes `previous` and
`next` into the blog-post template is not part of the repository source; per
the spec, the previous reference of the post at position `i` of the globally
date-descending post sequence is the adjacent older post (position `i + 1`). -/
def prevOf (sorted : List PostNode) (i : Nat) : Option PostNode :=
  sorted.get? (i + 1)

/-- Modelled from the spec: the next reference of the post at position `i` of
the globally date-descending post sequence is the adjacent newer post
(position `i - 1`), absent at the newest post (position 0). -/
def nextOf (sorted : List PostNode) (i : Nat) : Option PostNode :=
  if i = 0 then none else sorted.get? (i - 1)

/-- The result shape of the per-tag page query of src/templates/tags.js:
`allMarkdownRemark(limit: 2000, sort: date DESC, filter: tags in [$tag])`
with `totalCount` and `edges`. `totalCount` counts every node matching the
filter; `limit` caps the edge list. -/
structure TagQueryResult where
  totalCount : Nat
  edges : List PostNode
deriving Repr, DecidableEq

/-- Runs the per-tag page query over the content store: keep the nodes whose
frontmatter tag list contains the tag (exact, case-sensitive string match),
sort them newest first, and cap the edges at 2000. -/
def runTagPageQuery (posts : List PostNode) (tag : String) : TagQueryResult :=
  let matching := posts.filter fun n => decide (tag ∈ tagsOf n)
  { totalCount := matching.length
    edges := (sortPostsDesc matching).take 2000 }

/-- What the Tags template of src/templates/tags.js renders: the header with
the post count, and one list item per edge. -/
structure TagsPageView where
  countShown : Nat
  headerText : String
  items : List ListItem
deriving Repr, DecidableEq

/-- The Tags template render for one tag: header
`` `${totalCount} post${totalCount === 1 ? '' : 's'} tagged with "${tag}"` ``
and the edges mapped through PostListItem. -/
def TagsPage (posts : List PostNode) (tag : String) : TagsPageView :=
  let res := runTagPageQuery posts tag
  { countShown := res.totalCount
    headerText :=
      toString res.totalCount ++ " post" ++ (if res.totalCount = 1 then "" else "s")
        ++ " tagged with \"" ++ tag ++ "\""
    items := res.edges.map PostListItem }

/-- The blog index render: the date-descending query's edges mapped through
the PostListItem component. -/
def renderBlogIndex (posts : List PostNode) : List ListItem :=
  (sortPostsDesc posts).map PostListItem

/-- The grouping of the all-tags index query
`allMarkdownRemark(limit: 2000) { group(field: frontmatter___tags) }`: over
the first 2000 nodes of the store, one `(fieldValue, totalCount)` pair per
distinct tag value, counting the nodes that carry the tag. -/
def tagGroups (posts : List PostNode) : List (String × Nat) :=
  let limited := posts.take 2000
  ((limited.flatMap tagsOf).dedup).map fun t =>
    (t, (limited.filter fun n => decide (t ∈ tagsOf n)).length)

/-- One entry of the all-tags index: the tag, its post count, the link target
`/tags/${kebabCase(tag.fieldValue)}/`, and the shown text `tag (count)`. -/
structure TagIndexEntry where
  tag : String
  count : Nat
  href : String
  text : String
deriving Repr, DecidableEq

/-- The TagsPage (all-tags index) render: one linked entry per group. -/
def renderTagsIndex (posts : List PostNode) : List TagIndexEntry :=
  (tagGroups posts).map fun tc =>
    { tag := tc.1
      count := tc.2
      href := tagRoute tc.1
      text := tc.1 ++ " (" ++ toString tc.2 ++ ")" }

/-- The location object handed to the Layout component. -/
structure Location where
  pathname : String
deriving Repr, DecidableEq

/-- The header the Layout component chooses: the enlarged h1 title link on the
home route, the compact h3 title link elsewhere; both link to `/`. -/
inductive HeaderView where
  | largeTitleLink (toRoute : String) (title : String)
  | smallTitleLink (toRoute : String) (title : String)
deriving Repr, DecidableEq

/-- The Layout render: the chosen header followed by the child content. -/
structure LayoutView (α : Type) where
  header : HeaderView
  children : α
deriving Repr, DecidableEq

/-- `` const rootPath = `${__PATH_PREFIX__}/` `` from src/components/layout.js. -/
def rootPath (basePath : String) : String :=
  basePath ++ "/"

/-- The Layout component of src/components/layout.js: if
`location.pathname === rootPath` the enlarged title (h1 with a link to `/`),
otherwise the compact title link (h3 with a link to `/`); children follow. -/
def Layout (basePath : String) (location : Location) (title : String)
    (children : α) : LayoutView α :=
  { header :=
      if location.pathname = rootPath basePath then .largeTitleLink "/" title
      else .smallTitleLink "/" title
    children := children }

/-- Test fixture: post "A" of the spec's concrete scenario. -/
def postA : PostNode :=
  { fields := { slug := "/a/" }
    frontmatter := { title := some "A", date := "2019-01-01", description := some "da", tags := some ["x"] }
    excerpt := "ea"
    timeToRead := 1
    html := "<p>a</p>" }

/-- Test fixture: post "B" of the spec's concrete scenario. -/
def postB : PostNode :=
  { fields := { slug := "/b/" }
    frontmatter := { title := some "B", date := "2019-02-01", description := some "db", tags := some ["x", "y"] }
    excerpt := "eb"
    timeToRead := 2
    html := "<p>b</p>" }

/-- Test fixture: post "C" of the spec's concrete scenario. -/
def postC : PostNode :=
  { fields := { slug := "/c/" }
    frontmatter := { title := some "C", date := "2019-03-01", description := some "dc", tags := some ["y"] }
    excerpt := "ec"
    timeToRead := 3
    html := "<p>c</p>" }

/-- The three scenario posts, in file order. -/
def postsABC : List PostNode :=
  [postA, postB, postC]

/-- Test fixture: a node whose frontmatter title is present but empty. -/
def nodeEmptyTitle : PostNode :=
  { fields := { slug := "/hello-world/" }
    frontmatter := { title := some "", date := "2019-01-01", description := some "d", tags := none }
    excerpt := "e"
    timeToRead := 2
    html := "" }

/-- Test fixture: a node whose frontmatter description is present but empty. -/
def nodeEmptyDescription : PostNode :=
  { fields := { slug := "/empty-description/" }
    frontmatter := { title := some "T", date := "2019-01-01", description := some "", tags := none }
    excerpt := "the excerpt"
    timeToRead := 2
    html := "" }

/-- Test fixture: a post with an unsorted tag list. -/
def postUnsortedTags : PostNode :=
  { fields := { slug := "/unsorted/" }
    frontmatter := { title := some "U", date := "2019-04-01", description := some "du", tags := some ["y", "x"] }
    excerpt := "eu"
    timeToRead := 4
    html := "" }

/-- Test fixture: a post tagged "x". -/
def tagPostX : PostNode :=
  { fields := { slug := "/x-post/" }
    frontmatter := { title := some "X", date := "2019-01-01", description := none, tags := some ["x"] }
    excerpt := "ex"
    timeToRead := 1
    html := "" }

/-- Test fixture: a post tagged "z". -/
def tagPostZ : PostNode :=
  { fields := { slug := "/z-post/" }
    frontmatter := { title := some "Z", date := "2019-01-02", description := none, tags := some ["z"] }
    excerpt := "ez"
    timeToRead := 1
    html := "" }

/-- A content store of 2001 posts: 2000 copies of the "x"-tagged post followed
by the single "z"-tagged post. -/
def posts2001 : List PostNode :=
  List.replicate 2000 tagPostX ++ [tagPostZ]

/-- The tag list of the chips rendered by the blog-post template is the sorted
tag list. -/
theorem tagChips_map_tag (l : List String) :
    (tagChips l).map Chip.tag = sortStrings l := by
  simp only [tagChips, List.map_map]
  exact List.enum_map_snd _

/-- There are as many chips as tags. -/
theorem tagChips_length (l : List String) :
    (tagChips l).length = (sortStrings l).length := by
  simp [tagChips]

/-- Mapping a function of the index over an enumerated list is mapping it over
the range of indices. -/
theorem enum_map_comp_fst (l : List α) (g : Nat → β) :
    l.enum.map (fun p => g p.1) = (List.range l.length).map g := by
  rw [show (fun p : Nat × α => g p.1) = g ∘ Prod.fst from rfl, ← List.map_map,
    List.enum_map_fst]

/-- The separators of the rendered chips: empty after the last chip, a comma
and non-breaking space after every other chip. -/
theorem tagChips_map_sep (l : List String) :
    (tagChips l).map Chip.sep =
      (List.range (tagChips l).length).map
        (fun i => if i = (tagChips l).length - 1 then "" else commaNbsp) := by
  rw [tagChips_length]
  simp only [tagChips, List.map_map]
  exact enum_map_comp_fst (sortStrings l)
    (fun i => if i = (sortStrings l).length - 1 then "" else commaNbsp)

/-- Every chip links to the kebab-cased tag route of its own tag. -/
theorem tagChips_map_href (l : List String) :
    (tagChips l).map Chip.href = ((tagChips l).map Chip.tag).map tagRoute := by
  simp [tagChips, List.map_map, Function.comp]

/-- C1 counterexample: the claim "the displayed title equals the frontmatter
title when the title is present" is false — at a node whose title is present
but empty, the component displays the slug, because `||` tests truthiness. -/
theorem title_presence_claim_false :
    ¬ ∀ (n : PostNode) (t : String), n.frontmatter.title = some t →
        (PostListItem n).titleText = t := by
  intro h
  exact absurd (h nodeEmptyTitle "" rfl) (by decide)

/-- C1 (amended): the list item displays the frontmatter title when it is
present and non-empty, and falls back to the slug when the title is absent or
empty. -/
theorem postListItem_title_or_slug (n : PostNode) :
    (PostListItem n).titleText =
      match n.frontmatter.title with
      | some t => if t = "" then n.fields.slug else t
      | none => n.fields.slug := by
  rcases hT : n.frontmatter.title with _ | t <;> simp [PostListItem, jsOr, hT]

/-- C2 counterexample: the claim "the body snippet equals the frontmatter
description when the description is present" is false — at a node whose
description is present but empty, the component displays the excerpt. -/
theorem description_presence_claim_false :
    ¬ ∀ (n : PostNode) (d : String), n.frontmatter.description = some d →
        (PostListItem n).bodyHtml = d := by
  intro h
  exact absurd (h nodeEmptyDescription "" rfl) (by decide)

/-- C2 (amended): the list item's body snippet is the frontmatter description
when it is present and non-empty, and falls back to the auto-derived excerpt
when the description is absent or empty. -/
theorem postListItem_body_or_excerpt (n : PostNode) :
    (PostListItem n).bodyHtml =
      match n.frontmatter.description with
      | some d => if d = "" then n.excerpt else d
      | none => n.excerpt := by
  rcases hD : n.frontmatter.description with _ | d <;> simp [PostListItem, jsOr, hD]

/-- C3: the post count shown in a tag page's header equals the number of posts
whose frontmatter tag list contains the tag, by case-sensitive exact string
match, and the header text embeds exactly that count. -/
theorem tagsPage_count_correct (posts : List PostNode) (tag : String) :
    (TagsPage posts tag).countShown = (posts.filter fun n => decide (tag ∈ tagsOf n)).length
    ∧ (TagsPage posts tag).headerText =
        toString (TagsPage posts tag).countShown ++ " post"
          ++ (if (TagsPage posts tag).countShown = 1 then "" else "s")
          ++ " tagged with \"" ++ tag ++ "\"" := by
  exact ⟨rfl, rfl⟩

/-- C6: the blog index renders the posts newest first — in general the rendered
sequence is the date-descending sort of all posts, and on the spec's concrete
scenario (A: 2019-01-01, B: 2019-02-01, C: 2019-03-01) the rendered titles are
["C", "B", "A"]. -/
theorem blogIndex_newest_first :
    (∀ posts : List PostNode,
      List.Sorted postDateGe (sortPostsDesc posts)
      ∧ (sortPostsDesc posts).Perm posts
      ∧ renderBlogIndex posts = (sortPostsDesc posts).map PostListItem)
    ∧ (renderBlogIndex postsABC).map ListItem.titleText = ["C", "B", "A"] := by
  constructor
  · intro posts
    exact ⟨List.sorted_insertionSort postDateGe posts,
      List.perm_insertionSort postDateGe posts, rfl⟩
  · decide

/-- C8: the layout shows the enlarged title exactly on the home route, the
compact title link exactly on every other route, and passes the child content
through unchanged. -/
theorem layout_header_spec :
    ∀ (basePath : String) (loc : Location) (title : String) {α : Type} (children : α),
      ((Layout basePath loc title children).header = HeaderView.largeTitleLink "/" title
        ↔ loc.pathname = rootPath basePath)
      ∧ ((Layout basePath loc title children).header = HeaderView.smallTitleLink "/" title
        ↔ loc.pathname ≠ rootPath basePath)
      ∧ (Layout basePath loc title children).children = children := by
  intro basePath loc title α children
  by_cases hp : loc.pathname = rootPath basePath <;> simp [Layout, hp]

/-- C9: when the frontmatter description is present but empty, both the list
item's body snippet and the single-post page's SEO description fall back to
the excerpt, because the fallback tests truthiness. -/
theorem empty_description_falls_back (n : PostNode) (prevNode nextNode : Option PostNode)
    (h : n.frontmatter.description = some "") :
    (PostListItem n).bodyHtml = n.excerpt
    ∧ (BlogPostTemplate n prevNode nextNode).seoDescription = n.excerpt := by
  constructor <;> simp [PostListItem, BlogPostTemplate, jsOr, h]

/-- C9 witness: the fallback at a concrete node with an empty description. -/
theorem empty_description_falls_back_witness :
    (PostListItem nodeEmptyDescription).bodyHtml = nodeEmptyDescription.excerpt
    ∧ (BlogPostTemplate nodeEmptyDescription none none).seoDescription
        = nodeEmptyDescription.excerpt :=
  empty_description_falls_back nodeEmptyDescription none none rfl

/-- C10: the tag page query caps its edge list at 2000, so a tag page renders
at most 2000 list items; likewise the all-tags index groups only the first
2000 posts of the store. -/
theorem tag_query_limit_2000 (posts : List PostNode) (tag : String) :
    (TagsPage posts tag).items.length ≤ 2000
    ∧ tagGroups posts = tagGroups (posts.take 2000) := by
  constructor
  · simp only [TagsPage, runTagPageQuery, List.length_map, List.length_take]
    omega
  · simp [tagGroups, List.take_take]

/-- C4: on the single-post page the previous link renders precisely when an
adjacent older post exists in the date-descending sequence, and the next link
precisely when an adjacent newer post exists; so the newest post (position 0)
has no next link and the oldest post has no previous link. -/
theorem blogPost_prev_next_iff_adjacent (posts : List PostNode) (i : Nat)
    (h : i < (sortPostsDesc posts).length) :
    ((BlogPostTemplate ((sortPostsDesc posts).get ⟨i, h⟩) (prevOf (sortPostsDesc posts) i)
        (nextOf (sortPostsDesc posts) i)).prevLink.isSome
      ↔ i + 1 < (sortPostsDesc posts).length)
    ∧ ((BlogPostTemplate ((sortPostsDesc posts).get ⟨i, h⟩) (prevOf (sortPostsDesc posts) i)
        (nextOf (sortPostsDesc posts) i)).nextLink.isSome
      ↔ 0 < i) := by
  constructor
  · simp only [BlogPostTemplate, prevOf, Option.isSome_map', List.get?_eq_getElem?,
      Option.isSome_iff_ne_none, ne_eq, List.getElem?_eq_none_iff]
    omega
  · simp only [BlogPostTemplate, nextOf, Option.isSome_map']
    by_cases h0 : i = 0
    · simp [h0]
    · rw [if_neg h0, List.get?_eq_getElem?, Option.isSome_iff_ne_none, ne_eq,
        List.getElem?_eq_none_iff]
      simp only [Nat.not_le]
      omega

/-- C4 witness: in the three-post scenario, the middle post (position 1 of the
date-descending sequence) has both links. -/
theorem blogPost_prev_next_iff_adjacent_witness :
    ((BlogPostTemplate ((sortPostsDesc postsABC).get ⟨1, by decide⟩)
        (prevOf (sortPostsDesc postsABC) 1)
        (nextOf (sortPostsDesc postsABC) 1)).prevLink.isSome
      ↔ 1 + 1 < (sortPostsDesc postsABC).length)
    ∧ ((BlogPostTemplate ((sortPostsDesc postsABC).get ⟨1, by decide⟩)
        (prevOf (sortPostsDesc postsABC) 1)
        (nextOf (sortPostsDesc postsABC) 1)).nextLink.isSome
      ↔ 0 < 1) :=
  blogPost_prev_next_iff_adjacent postsABC 1 (by decide)

/-- C5: for a post with a non-empty tag list, the rendered chip tags are the
tags in sorted order (a sorted permutation of the post's tags), every chip but
the last is followed by the comma separator and the last by none, and each
chip links to the kebab-cased tag route of its tag. -/
theorem blogPost_tag_chips_spec (post : PostNode) (prevNode nextNode : Option PostNode)
    (h : tagsOf post ≠ []) :
    List.Sorted strLe (((BlogPostTemplate post prevNode nextNode).tagChips).map Chip.tag)
    ∧ ((((BlogPostTemplate post prevNode nextNode).tagChips).map Chip.tag).Perm (tagsOf post))
    ∧ (((BlogPostTemplate post prevNode nextNode).tagChips).map Chip.sep =
        (List.range ((BlogPostTemplate post prevNode nextNode).tagChips).length).map
          (fun i => if i = ((BlogPostTemplate post prevNode nextNode).tagChips).length - 1
            then "" else commaNbsp))
    ∧ (((BlogPostTemplate post prevNode nextNode).tagChips).map Chip.href =
        (((BlogPostTemplate post prevNode nextNode).tagChips).map Chip.tag).map tagRoute) := by
  have hv : (BlogPostTemplate post prevNode nextNode).tagChips = tagChips (tagsOf post) := rfl
  refine ⟨?_, ?_, ?_, ?_⟩
  · rw [hv, tagChips_map_tag]
    exact List.sorted_insertionSort strLe (tagsOf post)
  · rw [hv, tagChips_map_tag]
    exact List.perm_insertionSort strLe (tagsOf post)
  · rw [hv]
    exact tagChips_map_sep (tagsOf post)
  · rw [hv, tagChips_map_href, tagChips_map_tag]

/-- C5 witness: the chip properties at a concrete post whose tag list
["y", "x"] is unsorted. -/
theorem blogPost_tag_chips_spec_witness :
    List.Sorted strLe (((BlogPostTemplate postUnsortedTags none none).tagChips).map Chip.tag)
    ∧ ((((BlogPostTemplate postUnsortedTags none none).tagChips).map Chip.tag).Perm
        (tagsOf postUnsortedTags))
    ∧ (((BlogPostTemplate postUnsortedTags none none).tagChips).map Chip.sep =
        (List.range ((BlogPostTemplate postUnsortedTags none none).tagChips).length).map
          (fun i =>
            if i = ((BlogPostTemplate postUnsortedTags none none).tagChips).length - 1
            then "" else commaNbsp))
    ∧ (((BlogPostTemplate postUnsortedTags none none).tagChips).map Chip.href =
        (((BlogPostTemplate postUnsortedTags none none).tagChips).map Chip.tag).map tagRoute) :=
  blogPost_tag_chips_spec postUnsortedTags none none (by decide)

/-- Taking the first component of tag-count pairs built over a list returns
that list. -/
theorem map_fst_pairs (l : List String) (g : String → Nat) :
    (l.map fun t => (t, g t)).map Prod.fst = l := by
  induction l with
  | nil => rfl
  | cons a l ih => simp [ih]

/-- C7 counterexample: with 2001 posts in the store — 2000 tagged "x" and one
tagged "z" — the tag "z" occurs across all posts' tag lists, yet the all-tags
index does not list it, because its query groups only the first 2000 posts. -/
theorem tagsIndex_all_tags_claim_false :
    "z" ∈ (posts2001.flatMap tagsOf).dedup
    ∧ "z" ∉ (tagGroups posts2001).map Prod.fst := by
  have htake : posts2001.take 2000 = List.replicate 2000 tagPostX := by
    have h := List.take_left (List.replicate 2000 tagPostX) [tagPostZ]
    rwa [List.length_replicate] at h
  constructor
  · rw [List.mem_dedup, List.mem_flatMap]
    refine ⟨tagPostZ, ?_, by decide⟩
    exact List.mem_append_right _ (List.mem_singleton.mpr rfl)
  · intro hmem
    have hfst : (tagGroups posts2001).map Prod.fst
        = ((posts2001.take 2000).flatMap tagsOf).dedup := by
      simp only [tagGroups]
      exact map_fst_pairs _ _
    rw [hfst, htake, List.mem_dedup, List.mem_flatMap] at hmem
    obtain ⟨a, ha, hz⟩ := hmem
    rw [List.eq_of_mem_replicate ha] at hz
    exact absurd hz (by decide)

/-- C7 (amended): when the content store holds at most 2000 posts (the query
limit), the all-tags index lists exactly the distinct tag values across all
posts, each with the count of posts carrying it, each entry linking to the
kebab-cased tag route. -/
theorem tagsIndex_groups_spec (posts : List PostNode) (h : posts.length ≤ 2000) :
    (tagGroups posts).map Prod.fst = (posts.flatMap tagsOf).dedup
    ∧ (tagGroups posts).map Prod.snd
        = ((tagGroups posts).map Prod.fst).map
            (fun t => (posts.filter fun n => decide (t ∈ tagsOf n)).length)
    ∧ (renderTagsIndex posts).map TagIndexEntry.href
        = ((tagGroups posts).map Prod.fst).map tagRoute := by
  have ht : posts.take 2000 = posts := List.take_of_length_le h
  have hfst : (tagGroups posts).map Prod.fst = (posts.flatMap tagsOf).dedup := by
    simp only [tagGroups, ht]
    exact map_fst_pairs _ _
  refine ⟨hfst, ?_, ?_⟩
  · rw [hfst]
    simp only [tagGroups, ht, List.map_map]
    rfl
  · rw [hfst]
    simp only [renderTagsIndex, tagGroups, ht, List.map_map]
    rfl

/-- C7 witness: the amended property at a concrete two-post store. -/
theorem tagsIndex_groups_spec_witness :
    (tagGroups [tagPostX, tagPostZ]).map Prod.fst
        = ([tagPostX, tagPostZ].flatMap tagsOf).dedup
    ∧ (tagGroups [tagPostX, tagPostZ]).map Prod.snd
        = ((tagGroups [tagPostX, tagPostZ]).map Prod.fst).map
            (fun t => ([tagPostX, tagPostZ].filter fun n => decide (t ∈ tagsOf n)).length)
    ∧ (renderTagsIndex [tagPostX, tagPostZ]).map TagIndexEntry.href
        = ((tagGroups [tagPostX, tagPostZ]).map Prod.fst).map tagRoute :=
  tagsIndex_groups_spec [tagPostX, tagPostZ] (by decide)
